import Mathlib

/-!
Verification of `scrape.py` (BrutalAssault2025 schedule scraper).

We give a shallow embedding of the Python program.  Untrusted JSON data
decoded from the API response is modelled by the inductive type `JSON`
(numbers are modelled as integers: the fields the program reads —
`id`, `date_from`, `date_to` — are integer epoch values, and no claim
depends on fractional numbers).  Python attribute / subscript / iteration
semantics on such values, including the exceptions they raise on values of
the wrong shape, are modelled by small `Except`-valued helpers, and the
functions of `scrape.py` are translated line by line on top of them.

Text printed to stdout is modelled where a claim mentions it: the per-item
helpers return the list of lines they print together with their value; the
loop of `extract_schedule_info` drops them (the Python function returns only
the dictionary; prints go to stdout).
-/

/-- A decoded JSON value (a Python object as produced by `response.json()`).
`null` is Python `None`. -/
inductive JSON where
  | null
  | bool (b : Bool)
  | num (n : Int)
  | str (s : String)
  | arr (elems : List JSON)
  | obj (fields : List (String × JSON))
deriving Repr

mutual

/-- Decidable equality of JSON values (the automatic derivation does not
handle the nested lists). -/
def JSON.decEq : (a b : JSON) → Decidable (a = b)
  | .null, .null => isTrue rfl
  | .bool a, .bool b =>
    match Bool.decEq a b with
    | isTrue h => isTrue (by rw [h])
    | isFalse h => isFalse (fun hh => h (by injection hh))
  | .num a, .num b =>
    match Int.decEq a b with
    | isTrue h => isTrue (by rw [h])
    | isFalse h => isFalse (fun hh => h (by injection hh))
  | .str a, .str b =>
    match String.decEq a b with
    | isTrue h => isTrue (by rw [h])
    | isFalse h => isFalse (fun hh => h (by injection hh))
  | .arr xs, .arr ys =>
    match JSON.decEqList xs ys with
    | isTrue h => isTrue (by rw [h])
    | isFalse h => isFalse (fun hh => h (by injection hh))
  | .obj xs, .obj ys =>
    match JSON.decEqFields xs ys with
    | isTrue h => isTrue (by rw [h])
    | isFalse h => isFalse (fun hh => h (by injection hh))
  | .null, .bool _ => isFalse (fun h => JSON.noConfusion h)
  | .null, .num _ => isFalse (fun h => JSON.noConfusion h)
  | .null, .str _ => isFalse (fun h => JSON.noConfusion h)
  | .null, .arr _ => isFalse (fun h => JSON.noConfusion h)
  | .null, .obj _ => isFalse (fun h => JSON.noConfusion h)
  | .bool _, .null => isFalse (fun h => JSON.noConfusion h)
  | .bool _, .num _ => isFalse (fun h => JSON.noConfusion h)
  | .bool _, .str _ => isFalse (fun h => JSON.noConfusion h)
  | .bool _, .arr _ => isFalse (fun h => JSON.noConfusion h)
  | .bool _, .obj _ => isFalse (fun h => JSON.noConfusion h)
  | .num _, .null => isFalse (fun h => JSON.noConfusion h)
  | .num _, .bool _ => isFalse (fun h => JSON.noConfusion h)
  | .num _, .str _ => isFalse (fun h => JSON.noConfusion h)
  | .num _, .arr _ => isFalse (fun h => JSON.noConfusion h)
  | .num _, .obj _ => isFalse (fun h => JSON.noConfusion h)
  | .str _, .null => isFalse (fun h => JSON.noConfusion h)
  | .str _, .bool _ => isFalse (fun h => JSON.noConfusion h)
  | .str _, .num _ => isFalse (fun h => JSON.noConfusion h)
  | .str _, .arr _ => isFalse (fun h => JSON.noConfusion h)
  | .str _, .obj _ => isFalse (fun h => JSON.noConfusion h)
  | .arr _, .null => isFalse (fun h => JSON.noConfusion h)
  | .arr _, .bool _ => isFalse (fun h => JSON.noConfusion h)
  | .arr _, .num _ => isFalse (fun h => JSON.noConfusion h)
  | .arr _, .str _ => isFalse (fun h => JSON.noConfusion h)
  | .arr _, .obj _ => isFalse (fun h => JSON.noConfusion h)
  | .obj _, .null => isFalse (fun h => JSON.noConfusion h)
  | .obj _, .bool _ => isFalse (fun h => JSON.noConfusion h)
  | .obj _, .num _ => isFalse (fun h => JSON.noConfusion h)
  | .obj _, .str _ => isFalse (fun h => JSON.noConfusion h)
  | .obj _, .arr _ => isFalse (fun h => JSON.noConfusion h)

/-- Decidable equality of lists of JSON values. -/
def JSON.decEqList : (a b : List JSON) → Decidable (a = b)
  | [], [] => isTrue rfl
  | [], _ :: _ => isFalse (fun h => List.noConfusion h)
  | _ :: _, [] => isFalse (fun h => List.noConfusion h)
  | x :: xs, y :: ys =>
    match JSON.decEq x y with
    | isFalse h1 => isFalse (fun hh => h1 (by injection hh))
    | isTrue h1 =>
      match JSON.decEqList xs ys with
      | isTrue h2 => isTrue (by rw [h1, h2])
      | isFalse h2 => isFalse (fun hh => h2 (by injection hh))

/-- Decidable equality of JSON object field lists. -/
def JSON.decEqFields : (a b : List (String × JSON)) → Decidable (a = b)
  | [], [] => isTrue rfl
  | [], _ :: _ => isFalse (fun h => List.noConfusion h)
  | _ :: _, [] => isFalse (fun h => List.noConfusion h)
  | (s, v) :: xs, (t, w) :: ys =>
    match String.decEq s t with
    | isFalse h1 =>
      isFalse (fun hh => by
        injection hh with hp hrest
        exact h1 (congrArg Prod.fst hp))
    | isTrue h1 =>
      match JSON.decEq v w with
      | isFalse h2 =>
        isFalse (fun hh => by
          injection hh with hp hrest
          exact h2 (congrArg Prod.snd hp))
      | isTrue h2 =>
        match JSON.decEqFields xs ys with
        | isTrue h3 => isTrue (by rw [h1, h2, h3])
        | isFalse h3 => isFalse (fun hh => h3 (by injection hh))

end

instance : DecidableEq JSON := JSON.decEq

/-- Python truthiness (`if x:`) of a JSON value. -/
def truthy : JSON → Bool
  | .null => false
  | .bool b => b
  | .num n => n != 0
  | .str s => s != ""
  | .arr xs => !xs.isEmpty
  | .obj kvs => !kvs.isEmpty

/-- The Python exceptions the modelled operations can raise. -/
inductive PyErr where
  | attributeError
  | typeError
  | indexError
  | keyError
deriving DecidableEq, Repr

/-- Field lookup in a JSON object (Python dict keys are unique, so first
occurrence wins). -/
def lookupField (kvs : List (String × JSON)) (k : String) : Option JSON :=
  (kvs.find? (fun kv => kv.1 == k)).map (·.2)

/-- Python `v.get(k)`: `None` when the key is absent; `AttributeError` when
`v` is not a dict. -/
def pyGet (v : JSON) (k : String) : Except PyErr JSON :=
  match v with
  | .obj kvs => .ok ((lookupField kvs k).getD .null)
  | _ => .error .attributeError

/-- Python `v.get(k, dflt)`. -/
def pyGetD (v : JSON) (k : String) (dflt : JSON) : Except PyErr JSON :=
  match v with
  | .obj kvs => .ok ((lookupField kvs k).getD dflt)
  | _ => .error .attributeError

/-- Python `k in v` for a string `k`: key membership for dicts, element
membership for lists, substring test for strings, `TypeError` otherwise. -/
def pyContains (k : String) (v : JSON) : Except PyErr Bool :=
  match v with
  | .obj kvs => .ok (kvs.any (fun kv => kv.1 == k))
  | .arr xs => .ok (xs.any (fun x => x == .str k))
  | .str s => .ok (k == "" || (s.splitOn k).length ≥ 2)
  | _ => .error .typeError

/-- Python `v[k]` for a string key `k`: dict subscript (`KeyError` when
absent), `TypeError` on lists/strings (string indices) and on
non-subscriptable values. -/
def pySubscript (v : JSON) (k : String) : Except PyErr JSON :=
  match v with
  | .obj kvs =>
    match lookupField kvs k with
    | some x => .ok x
    | none => .error .keyError
  | _ => .error .typeError

/-- Python iteration over a value: lists yield elements, strings yield
one-character strings, dicts yield their keys; other values raise
`TypeError`. -/
def pyIter : JSON → Except PyErr (List JSON)
  | .arr xs => .ok xs
  | .str s => .ok (s.toList.map (fun c => .str (String.singleton c)))
  | .obj kvs => .ok (kvs.map (fun kv => .str kv.1))
  | _ => .error .typeError

/-- Python `v[0]`. -/
def pyIndex0 : JSON → Except PyErr JSON
  | .arr [] => .error .indexError
  | .arr (x :: _) => .ok x
  | .str s =>
    match s.toList with
    | [] => .error .indexError
    | c :: _ => .ok (.str (String.singleton c))
  | .obj _ => .error .keyError
  | _ => .error .typeError

/-- Whether a JSON value is hashable in Python (usable as a dict key):
lists and dicts are not. -/
def hashable : JSON → Bool
  | .arr _ => false
  | .obj _ => false
  | _ => true

mutual

/-- Rendering of a JSON value by a Python f-string (`str()`), used for the
log lines.  Containers are rendered structurally; the exact quoting of
strings inside containers is approximated (no claim depends on it). -/
def pyStr : JSON → String
  | .null => "None"
  | .bool b => if b then "True" else "False"
  | .num n => toString n
  | .str s => s
  | .arr xs => "[" ++ pyStrList xs ++ "]"
  | .obj kvs => "dict(" ++ pyStrFields kvs ++ ")"

/-- Comma-separated rendering of list elements. -/
def pyStrList : List JSON → String
  | [] => ""
  | [x] => pyStr x
  | x :: rest => pyStr x ++ ", " ++ pyStrList rest

/-- Comma-separated rendering of object fields. -/
def pyStrFields : List (String × JSON) → String
  | [] => ""
  | [(k, v)] => k ++ ": " ++ pyStr v
  | (k, v) :: rest => k ++ ": " ++ pyStr v ++ ", " ++ pyStrFields rest

end

/-- `next((s for s in elems if s.get('language') == 'EN'), None)`:
the first element whose `language` field equals `"EN"`; evaluation is lazy,
so an element of the wrong shape raises only if reached. -/
def findEN : List JSON → Except PyErr (Option JSON)
  | [] => .ok none
  | x :: rest => do
    let lang ← pyGet x "language"
    if lang = JSON.str "EN" then .ok (some x) else findEN rest

/-! ## `timestamp_to_iso8601` (scrape.py lines 21-31)

`datetime.fromtimestamp` is a library call; we model it at UTC (the local
timezone of the reference cron host is an environment parameter; no claim
depends on the rendered digits).  CPython accepts exactly the timestamps
whose local calendar date falls in years 1..9999 and raises
`ValueError`/`OSError`/`OverflowError` outside that range (including the
huge integers that overflow the float division) — all of which the source
catches.  A non-numeric, non-`None` argument raises `TypeError` at the
division, which the source does **not** catch.  Python `bool` is numeric
(`True/1000.0 == 0.001`). -/

/-- Smallest accepted argument, in milliseconds: 0001-01-02T00:00:00 UTC
(CPython probes one day around the timestamp for timezone detection, so the
first day of year 1 is already rejected).  The exact cut-off is
platform-dependent; no claim depends on it. -/
def tsMinMs : Int := -62135510400000

/-- Largest accepted argument, in milliseconds: 9999-12-31T23:59:59.999 UTC. -/
def tsMaxMs : Int := 253402300799999

/-- Civil (proleptic Gregorian) date from days since 1970-01-01. -/
def civilFromDays (z0 : Int) : Int × Nat × Nat :=
  let z := z0 + 719468
  let era := z.ediv 146097
  let doe := (z.emod 146097).toNat
  let yoe := (doe - doe / 1460 + doe / 36524 - doe / 146096) / 365
  let y : Int := (yoe : Int) + era * 400
  let doy := doe - (365 * yoe + yoe / 4 - yoe / 100)
  let mp := (5 * doy + 2) / 153
  let d := doy - (153 * mp + 2) / 5 + 1
  let m := if mp < 10 then mp + 3 else mp - 9
  ((if m ≤ 2 then y + 1 else y), m, d)

/-- Zero-padded decimal rendering. -/
def padNum (width n : Nat) : String :=
  let s := toString n
  String.mk (List.replicate (width - s.length) (Char.ofNat 48)) ++ s

/-- `datetime.fromtimestamp(ms / 1000.0).isoformat()` for an in-range
integer number of milliseconds, modelled at UTC. -/
def isoFromMs (ms : Int) : String :=
  let q := ms.ediv 1000
  let msr := (ms.emod 1000).toNat
  let days := q.ediv 86400
  let secOfDay := (q.emod 86400).toNat
  let ymd := civilFromDays days
  let hh := secOfDay / 3600
  let mi := secOfDay % 3600 / 60
  let ss := secOfDay % 60
  padNum 4 ymd.1.toNat ++ "-" ++ padNum 2 ymd.2.1 ++ "-" ++ padNum 2 ymd.2.2 ++
    "T" ++ padNum 2 hh ++ ":" ++ padNum 2 mi ++ ":" ++ padNum 2 ss ++
    (if msr = 0 then "" else "." ++ padNum 6 (msr * 1000))

/-- The diagnostic printed by `timestamp_to_iso8601` on a conversion error
(the trailing exception text varies with the platform and is elided). -/
def tsErrLine (timestamp_ms : JSON) : String :=
  "Error converting timestamp " ++ pyStr timestamp_ms ++ ": "

/-- scrape.py lines 21-31: `timestamp_to_iso8601(timestamp_ms)`.
Returns the result together with the printed diagnostic lines.
`None` maps to `None`; for numeric input the
`ValueError`/`OSError`/`OverflowError` raised on an out-of-range value is
caught, logged and turned into `None`; a non-numeric, non-`None` value
raises `TypeError` at `timestamp_ms / 1000.0`, which is not caught. -/
def timestamp_to_iso8601 (timestamp_ms : JSON) : Except PyErr (Option String × List String) :=
  match timestamp_ms with
  | .null => .ok (none, [])
  | .num n =>
    if tsMinMs ≤ n ∧ n ≤ tsMaxMs then .ok (some (isoFromMs n), [])
    else .ok (none, [tsErrLine (.num n)])
  | .bool b => .ok (some (isoFromMs (if b then 1 else 0)), [])
  | _ => .error .typeError

/-! ## `extract_stage_name` (scrape.py lines 33-45) -/

/-- scrape.py lines 33-45: `extract_stage_name(stage_info)`.  Prefers the
entry with `language == 'EN'`, falls back to the first entry, returns `None`
for a falsy `stage_info` or an empty/absent `localized` list. -/
def extract_stage_name (stage_info : JSON) : Except PyErr JSON :=
  if truthy stage_info = false then .ok .null
  else do
    let localized_stages ← pyGetD stage_info "localized" (.arr [])
    let elems ← pyIter localized_stages
    let en_name_entry ← findEN elems
    if (match en_name_entry with | some e => truthy e | none => false) = true then
      pyGet (en_name_entry.getD .null) "name"
    else if truthy localized_stages = true then do
      let first ← pyIndex0 localized_stages
      pyGet first "name"
    else .ok .null

/-! ## `extract_schedule_info` (scrape.py lines 47-108) -/

/-- A performance record as assembled on scrape.py lines 86-92.  The two
date fields hold the result of `timestamp_to_iso8601`; `id`, `artist_name`
and `genre` hold whatever JSON value the item carried. -/
structure Entry where
  id : JSON
  date_from_iso8601 : Option String
  date_to_iso8601 : Option String
  artist_name : JSON
  genre : JSON
deriving DecidableEq, Repr

/-- scrape.py lines 69-70: `artist_info.get('name') if artist_info else None`. -/
def artist_name_of (artist_info : JSON) : Except PyErr JSON :=
  if truthy artist_info = true then pyGet artist_info "name" else .ok .null

/-- scrape.py lines 72-75: the English localized artist block, or `None`
when `artist_info` is falsy or has no `localized` key. -/
def en_localized (artist_info : JSON) : Except PyErr (Option JSON) :=
  if truthy artist_info = true then do
    let has ← pyContains "localized" artist_info
    if has = true then do
      let loc ← pySubscript artist_info "localized"
      let elems ← pyIter loc
      findEN elems
    else .ok none
  else .ok none

/-- scrape.py line 83: `en_artist_info.get('genre') if en_artist_info else None`. -/
def resolve_genre (en_artist_info : Option JSON) : Except PyErr JSON :=
  match en_artist_info with
  | some v => if truthy v = true then pyGet v "genre" else .ok .null
  | none => .ok .null

/-- The warning printed on scrape.py line 67 when no stage name could be
determined. -/
def warnLine (schedule_id : JSON) : String :=
  "Warning: Could not determine stage name for schedule ID " ++ pyStr schedule_id ++
    ". Using \x27Unknown Stage\x27."

/-- scrape.py lines 65-66: the stage key actually used for grouping — the
resolved name when truthy, the placeholder `"Unknown Stage"` otherwise. -/
def stage_key (raw_stage_name : JSON) : JSON :=
  if truthy raw_stage_name = true then raw_stage_name else .str "Unknown Stage"

/-- The warning lines printed by scrape.py line 67: one warning exactly when
the resolved stage name is falsy. -/
def stage_warn (schedule_id raw_stage_name : JSON) : List String :=
  if truthy raw_stage_name = true then [] else [warnLine schedule_id]

/-- The body of the `try` block, scrape.py lines 56-102, for one schedule
item.  Returns the lines it printed and — when the item passes the
inclusion gate of line 78 — the stage key and the assembled record;
`none` when the item is silently dropped.  Any modelled Python exception
is returned as `.error` (to be caught by the `except` on line 104).
The hashability check models line 95: `stage_name not in stages_dict`
raises `TypeError` when the resolved stage name is an unhashable value. -/
def processItem (item : JSON) : Except PyErr (List String × Option (JSON × Entry)) := do
  let schedule_id ← pyGet item "id"
  let date_from_ms ← pyGet item "date_from"
  let date_to_ms ← pyGet item "date_to"
  let stage_info ← pyGet item "stage"
  let raw_stage_name ← extract_stage_name stage_info
  let stage_name := stage_key raw_stage_name
  let warnLogs := stage_warn schedule_id raw_stage_name
  let artist_info ← pyGetD item "artist" (.obj [])
  let artist_name ← artist_name_of artist_info
  let en_artist_info ← en_localized artist_info
  if schedule_id ≠ JSON.null ∧ date_from_ms ≠ JSON.null ∧ truthy artist_name = true then do
    let fres ← timestamp_to_iso8601 date_from_ms
    let tres ← timestamp_to_iso8601 date_to_ms
    let genre ← resolve_genre en_artist_info
    let e : Entry :=
      { id := schedule_id, date_from_iso8601 := fres.1, date_to_iso8601 := tres.1,
        artist_name := artist_name, genre := genre }
    if hashable stage_name = true then
      .ok (warnLogs ++ fres.2 ++ tres.2, some (stage_name, e))
    else .error .typeError
  else
    .ok (warnLogs, none)

/-- The accumulated `stages_dict`: a Python dict in insertion order, from
stage key to the ordered list of records. -/
abbrev StagesDict := List (JSON × List Entry)

/-- Lookup of a stage key in the dictionary. -/
def dictLookup (d : StagesDict) (k : JSON) : Option (List Entry) :=
  (d.find? (fun p => p.1 = k)).map (·.2)

/-- scrape.py lines 95-97: create the list for a first-seen key, then
append the record to the list of its stage (insertion order preserved,
as for a Python dict). -/
def appendEntry (d : StagesDict) (k : JSON) (e : Entry) : StagesDict :=
  match d with
  | [] => [(k, [e])]
  | p :: rest => if p.1 = k then (p.1, p.2 ++ [e]) :: rest else p :: appendEntry rest k e

/-- scrape.py line 105, the body of the `except` handler:
`print(f"Error processing schedule item ID {item.get('id', 'Unknown')}: {e}")`.
The call `item.get('id', 'Unknown')` itself raises `AttributeError` when
`item` is not a dict — inside the handler, so it propagates. -/
def exceptHandlerLine (item : JSON) : Except PyErr String :=
  match item with
  | .obj kvs =>
    .ok ("Error processing schedule item ID " ++
      pyStr ((lookupField kvs "id").getD (.str "Unknown")) ++ ": ")
  | _ => .error .attributeError

/-- The `for` loop of scrape.py lines 55-106 over the schedule items,
threading `stages_dict`.  An exception from the `try` body runs the
`except` handler and continues; an exception from the handler itself
aborts the whole loop. -/
def scheduleLoop : List JSON → StagesDict → Except PyErr StagesDict
  | [], acc => .ok acc
  | item :: rest, acc =>
    match processItem item with
    | .ok (_, none) => scheduleLoop rest acc
    | .ok (_, some (k, e)) => scheduleLoop rest (appendEntry acc k e)
    | .error _ =>
      match exceptHandlerLine item with
      | .ok _ => scheduleLoop rest acc
      | .error e2 => .error e2

/-- scrape.py line 55: the iterable `schedule_data['schedules']`. -/
def schedulesOf (schedule_data : JSON) : Except PyErr (List JSON) := do
  let sl ← pySubscript schedule_data "schedules"
  pyIter sl

/-- scrape.py lines 47-108: `extract_schedule_info(schedule_data)`.
Returns `{}` when the input is falsy or has no `schedules` key
(printing "Invalid data format received."), otherwise folds the loop
over the items.  A modelled exception escaping the loop (or raised by
`'schedules' not in schedule_data` / the subscript / the iteration on a
value of the wrong shape) is returned as `.error`. -/
def extract_schedule_info (schedule_data : JSON) : Except PyErr StagesDict :=
  if truthy schedule_data = false then .ok []
  else
    match pyContains "schedules" schedule_data with
    | .error e => .error e
    | .ok false => .ok []
    | .ok true =>
      match schedulesOf schedule_data with
      | .error e => .error e
      | .ok items => scheduleLoop items []

/-! ## `main` (scrape.py lines 110-159)

The fetch itself (`requests.get`) is an external effect; its outcome is
modelled as `Option JSON` — `none` is the `None` sentinel returned by
`fetch_and_extract_schedule_data` on a request or decode error.  The file
write is modelled by the `written` field: `some m` means `json.dump(m, f)`
was executed on the destination file, `none` that no file was opened. -/

/-- Observable outcome of one run of `main`: the progress/diagnostic lines
printed to stdout, and the mapping written to the destination file, if any. -/
structure MainResult where
  logs : List String
  written : Option StagesDict
deriving DecidableEq, Repr

/-- scrape.py lines 110-159: the orchestration of `main` after argument
parsing, given the destination filename and the fetch outcome.  An
exception raised by `extract_schedule_info` propagates (uncaught). -/
def mainStep (output_filename : String) (raw_data : Option JSON) : Except PyErr MainResult :=
  let fetching := "Fetching schedule data..."
  let failLine := "Failed to retrieve or parse schedule data."
  match raw_data with
  | none => .ok ⟨[fetching, failLine], none⟩
  | some d =>
    if truthy d = true then
      match extract_schedule_info d with
      | .error e => .error e
      | .ok stages_data =>
        if stages_data.isEmpty then
          .ok ⟨[fetching, "Extracting information...",
                "No valid schedule information extracted."], none⟩
        else
          .ok ⟨[fetching, "Extracting information...",
                "\nExtracted data for " ++ toString stages_data.length ++ " stages.",
                "Information in JSON format (showing structure):",
                String.mk (List.replicate 50 (Char.ofNat 45)),
                "\nData saved to \x27" ++ output_filename ++ "\x27"],
              some stages_data⟩
    else .ok ⟨[fetching, failLine], none⟩

/-! ## Derived definitions and concrete sample data -/

/-- The records contributed to stage key `k` by a list of items, in input
order: one record per item whose `try` body succeeds, passes the inclusion
gate, and resolves to the key `k`. -/
def keptEntries (k : JSON) (items : List JSON) : List Entry :=
  items.filterMap (fun it =>
    match processItem it with
    | .ok (_, some (k2, e)) => if k2 = k then some e else none
    | _ => none)

/-- The stage keys of an accumulated dictionary, in insertion order. -/
def dictKeys (d : StagesDict) : List JSON := d.map (·.1)

/-- A `localized` list consisting purely of `{language, name}` pairs. -/
def localizedPairs (ps : List (String × String)) : JSON :=
  .arr (ps.map (fun p => .obj [("language", .str p.1), ("name", .str p.2)]))

/-- A well-formed sample schedule item (the end-to-end example of the spec,
with an epoch-0 `date_from` and no `date_to`). -/
def sampleItem : JSON := .obj
  [("id", .num 1), ("date_from", .num 0),
   ("stage", .obj [("localized", .arr
     [.obj [("language", .str "EN"), ("name", .str "Main Stage")]])]),
   ("artist", .obj [("name", .str "Band X"),
     ("localized", .arr [.obj [("language", .str "EN"), ("genre", .str "Metal")]])])]

/-- A raw response containing only `sampleItem`. -/
def sampleInput : JSON := .obj [("schedules", .arr [sampleItem])]

/-- The record `extract_schedule_info` produces for `sampleItem`. -/
def sampleRecord : Entry :=
  { id := .num 1, date_from_iso8601 := some "1970-01-01T00:00:00",
    date_to_iso8601 := none, artist_name := .str "Band X", genre := .str "Metal" }

/-- The mapping `extract_schedule_info` produces for `sampleInput`. -/
def sampleOutput : StagesDict := [(.str "Main Stage", [sampleRecord])]

/-- An item whose raw `date_from` (an epoch around year 31 million) passes
the inclusion gate but overflows the timestamp conversion. -/
def c1Item : JSON := .obj [("id", .num 1), ("date_from", .num 1000000000000000000),
  ("artist", .obj [("name", .str "X")])]

/-- A raw response containing only `c1Item`. -/
def c1Input : JSON := .obj [("schedules", .arr [c1Item])]

/-- The record produced for `c1Item`: kept, with a null `date_from_iso8601`. -/
def c1Record : Entry :=
  { id := .num 1, date_from_iso8601 := none, date_to_iso8601 := none,
    artist_name := .str "X", genre := JSON.null }

/-- An item whose artist has a non-empty `localized` list with no EN entry;
the first entry carries a genre. -/
def c2Item : JSON := .obj [("id", .num 1), ("date_from", .num 0),
  ("artist", .obj [("name", .str "X"),
    ("localized", .arr [.obj [("language", .str "CZ"), ("genre", .str "Metal")]])])]

/-- A raw response containing only `c2Item`. -/
def c2Input : JSON := .obj [("schedules", .arr [c2Item])]

/-- The record produced for `c2Item`: its genre is null, not "Metal". -/
def c2Record : Entry :=
  { id := .num 1, date_from_iso8601 := some "1970-01-01T00:00:00",
    date_to_iso8601 := none, artist_name := .str "X", genre := JSON.null }

/-- An item that passes the inclusion gate (non-null id and date_from,
non-empty artist name) but whose `date_to` is a string, so the uncaught
`TypeError` of `timestamp_to_iso8601` aborts its `try` body. -/
def c3Item : JSON := .obj [("id", .num 1), ("date_from", .num 0),
  ("date_to", .str "oops"), ("artist", .obj [("name", .str "X")])]

/-- A raw response containing only `c3Item`. -/
def c3Input : JSON := .obj [("schedules", .arr [c3Item])]

/-- A schedules list whose first item is not a dict (the raw JSON carries a
bare number in the list), followed by a fully valid item. -/
def c4Input : JSON := .obj [("schedules", .arr [.num 42, sampleItem])]

/-- An item that passes the inclusion gate but whose resolved stage name is
a list — unhashable, so line 95 raises `TypeError` inside the `try` body. -/
def c5Item : JSON := .obj [("id", .num 1), ("date_from", .num 0),
  ("stage", .obj [("localized", .arr
    [.obj [("language", .str "EN"), ("name", .arr [.num 7])]])]),
  ("artist", .obj [("name", .str "X")])]

/-- A raw response containing only `c5Item`. -/
def c5Input : JSON := .obj [("schedules", .arr [c5Item])]

/-- An item with an `id` but no `date_from` and no `stage`: it triggers the
"Unknown Stage" warning and then fails the inclusion gate. -/
def c6Item : JSON := .obj [("id", .num 7)]

/-- A kept item whose stage `localized` list has a single EN entry carrying
no `name` field. -/
def c10Item : JSON := .obj [("id", .num 1), ("date_from", .num 0),
  ("stage", .obj [("localized", .arr [.obj [("language", .str "EN")]])]),
  ("artist", .obj [("name", .str "X")])]

/-- The record produced for `c10Item`. -/
def c10Record : Entry :=
  { id := .num 1, date_from_iso8601 := some "1970-01-01T00:00:00",
    date_to_iso8601 := none, artist_name := .str "X", genre := JSON.null }

/-! ## Helper lemmas -/

/-- Inversion of a successful, *kept* run of the per-item body: recovers
every intermediate value of scrape.py lines 56-97. -/
theorem processItem_ok_some (item : JSON) (logs : List String) (k : JSON) (e : Entry)
    (h : processItem item = .ok (logs, some (k, e))) :
    ∃ dfm dtm si rsn ai en flog tlog,
      pyGet item "id" = .ok e.id ∧
      pyGet item "date_from" = .ok dfm ∧
      pyGet item "date_to" = .ok dtm ∧
      pyGet item "stage" = .ok si ∧
      extract_stage_name si = .ok rsn ∧
      k = stage_key rsn ∧
      pyGetD item "artist" (.obj []) = .ok ai ∧
      artist_name_of ai = .ok e.artist_name ∧
      en_localized ai = .ok en ∧
      e.id ≠ JSON.null ∧ dfm ≠ JSON.null ∧ truthy e.artist_name = true ∧
      timestamp_to_iso8601 dfm = .ok (e.date_from_iso8601, flog) ∧
      timestamp_to_iso8601 dtm = .ok (e.date_to_iso8601, tlog) ∧
      resolve_genre en = .ok e.genre ∧
      hashable k = true ∧
      logs = stage_warn e.id rsn ++ flog ++ tlog := by
  unfold processItem at h
  cases h1 : pyGet item "id" with
  | error e1 => simp only [h1, bind, Except.bind] at h; exact Except.noConfusion h
  | ok schedule_id =>
  simp only [h1, bind, Except.bind] at h
  cases h2 : pyGet item "date_from" with
  | error e2 => simp only [h2, bind, Except.bind] at h; exact Except.noConfusion h
  | ok date_from_ms =>
  simp only [h2, bind, Except.bind] at h
  cases h3 : pyGet item "date_to" with
  | error e3 => simp only [h3, bind, Except.bind] at h; exact Except.noConfusion h
  | ok date_to_ms =>
  simp only [h3, bind, Except.bind] at h
  cases h4 : pyGet item "stage" with
  | error e4 => simp only [h4, bind, Except.bind] at h; exact Except.noConfusion h
  | ok stage_info =>
  simp only [h4, bind, Except.bind] at h
  cases h5 : extract_stage_name stage_info with
  | error e5 => simp only [h5, bind, Except.bind] at h; exact Except.noConfusion h
  | ok raw_stage_name =>
  simp only [h5, bind, Except.bind] at h
  cases h6 : pyGetD item "artist" (.obj []) with
  | error e6 => simp only [h6, bind, Except.bind] at h; exact Except.noConfusion h
  | ok artist_info =>
  simp only [h6, bind, Except.bind] at h
  cases h7 : artist_name_of artist_info with
  | error e7 => simp only [h7, bind, Except.bind] at h; exact Except.noConfusion h
  | ok artist_name =>
  simp only [h7, bind, Except.bind] at h
  cases h8 : en_localized artist_info with
  | error e8 => simp only [h8, bind, Except.bind] at h; exact Except.noConfusion h
  | ok en_artist_info =>
  simp only [h8, bind, Except.bind] at h
  split at h
  case isFalse => simp at h
  case isTrue hgate =>
  cases h9 : timestamp_to_iso8601 date_from_ms with
  | error e9 => simp only [h9, bind, Except.bind] at h; exact Except.noConfusion h
  | ok fres =>
  simp only [h9, bind, Except.bind] at h
  cases h10 : timestamp_to_iso8601 date_to_ms with
  | error e10 => simp only [h10, bind, Except.bind] at h; exact Except.noConfusion h
  | ok tres =>
  simp only [h10, bind, Except.bind] at h
  cases h11 : resolve_genre en_artist_info with
  | error e11 => simp only [h11, bind, Except.bind] at h; exact Except.noConfusion h
  | ok genre =>
  simp only [h11, bind, Except.bind] at h
  split at h
  case isFalse => exact Except.noConfusion h
  case isTrue hhash =>
  obtain ⟨f1, f2⟩ := fres
  obtain ⟨t1, t2⟩ := tres
  injection h with hpair
  injection hpair with hlogs hsome
  injection hsome with hsome2
  injection hsome2 with hk hE
  subst hE
  subst hk
  refine ⟨date_from_ms, date_to_ms, stage_info, raw_stage_name, artist_info,
    en_artist_info, f2, t2, rfl, rfl, rfl, rfl, h5, rfl, rfl, h7, h8,
    hgate.1, hgate.2.1, hgate.2.2, h9, h10, h11, hhash, hlogs.symm⟩

/-- Inversion of a silently dropped item (scrape.py line 102): the body
succeeded and the inclusion gate of line 78 failed. -/
theorem processItem_ok_none (item : JSON) (logs : List String)
    (h : processItem item = .ok (logs, none)) :
    ∃ i dfm si rsn ai an,
      pyGet item "id" = .ok i ∧ pyGet item "date_from" = .ok dfm ∧
      pyGet item "stage" = .ok si ∧ extract_stage_name si = .ok rsn ∧
      pyGetD item "artist" (.obj []) = .ok ai ∧ artist_name_of ai = .ok an ∧
      logs = stage_warn i rsn ∧
      ¬(i ≠ JSON.null ∧ dfm ≠ JSON.null ∧ truthy an = true) := by
  unfold processItem at h
  cases h1 : pyGet item "id" with
  | error e1 => simp only [h1, bind, Except.bind] at h; exact Except.noConfusion h
  | ok schedule_id =>
  simp only [h1, bind, Except.bind] at h
  cases h2 : pyGet item "date_from" with
  | error e2 => simp only [h2, bind, Except.bind] at h; exact Except.noConfusion h
  | ok date_from_ms =>
  simp only [h2, bind, Except.bind] at h
  cases h3 : pyGet item "date_to" with
  | error e3 => simp only [h3, bind, Except.bind] at h; exact Except.noConfusion h
  | ok date_to_ms =>
  simp only [h3, bind, Except.bind] at h
  cases h4 : pyGet item "stage" with
  | error e4 => simp only [h4, bind, Except.bind] at h; exact Except.noConfusion h
  | ok stage_info =>
  simp only [h4, bind, Except.bind] at h
  cases h5 : extract_stage_name stage_info with
  | error e5 => simp only [h5, bind, Except.bind] at h; exact Except.noConfusion h
  | ok raw_stage_name =>
  simp only [h5, bind, Except.bind] at h
  cases h6 : pyGetD item "artist" (.obj []) with
  | error e6 => simp only [h6, bind, Except.bind] at h; exact Except.noConfusion h
  | ok artist_info =>
  simp only [h6, bind, Except.bind] at h
  cases h7 : artist_name_of artist_info with
  | error e7 => simp only [h7, bind, Except.bind] at h; exact Except.noConfusion h
  | ok artist_name =>
  simp only [h7, bind, Except.bind] at h
  cases h8 : en_localized artist_info with
  | error e8 => simp only [h8, bind, Except.bind] at h; exact Except.noConfusion h
  | ok en_artist_info =>
  simp only [h8, bind, Except.bind] at h
  split at h
  case isTrue hgate =>
    cases h9 : timestamp_to_iso8601 date_from_ms with
    | error e9 => simp only [h9, bind, Except.bind] at h; exact Except.noConfusion h
    | ok fres =>
    simp only [h9, bind, Except.bind] at h
    cases h10 : timestamp_to_iso8601 date_to_ms with
    | error e10 => simp only [h10, bind, Except.bind] at h; exact Except.noConfusion h
    | ok tres =>
    simp only [h10, bind, Except.bind] at h
    cases h11 : resolve_genre en_artist_info with
    | error e11 => simp only [h11, bind, Except.bind] at h; exact Except.noConfusion h
    | ok genre =>
    simp only [h11, bind, Except.bind] at h
    split at h
    · simp at h
    · exact Except.noConfusion h
  case isFalse hgate =>
    injection h with hpair
    injection hpair with hlogs hnone
    exact ⟨schedule_id, date_from_ms, stage_info, raw_stage_name, artist_info, artist_name,
      rfl, rfl, rfl, h5, rfl, h7, hlogs.symm, hgate⟩

/-- Appending to a key leaves the lookup of other keys unchanged. -/
theorem dictLookup_append_ne (d : StagesDict) (k k2 : JSON) (e : Entry)
    (hne : k2 ≠ k) : dictLookup (appendEntry d k e) k2 = dictLookup d k2 := by
  have hkk2 : ¬(k = k2) := fun hh => hne hh.symm
  induction d with
  | nil => simp [appendEntry, dictLookup, List.find?, hkk2]
  | cons p rest ih =>
    by_cases hpk : p.1 = k
    · simp [appendEntry, dictLookup, List.find?, hpk, hkk2]
    · by_cases hpk2 : p.1 = k2
      · simp [appendEntry, dictLookup, List.find?, hpk, hpk2, hne]
      · simp only [appendEntry, hpk, if_false]
        simp only [dictLookup, List.find?, hpk2, decide_False] at ih ⊢
        exact ih

/-- Appending to key `k` makes its lookup the old list (empty for a new
key) with `e` appended. -/
theorem dictLookup_append_same (d : StagesDict) (k : JSON) (e : Entry) :
    dictLookup (appendEntry d k e) k = some ((dictLookup d k).getD [] ++ [e]) := by
  induction d with
  | nil => simp [appendEntry, dictLookup, List.find?]
  | cons p rest ih =>
    by_cases hpk : p.1 = k
    · simp [appendEntry, dictLookup, List.find?, hpk]
    · simp only [appendEntry, hpk, if_false]
      simp only [dictLookup, List.find?, hpk, decide_False] at ih ⊢
      exact ih

/-- One record per kept item: characterization of the loop's final lookup
for each key, relative to the accumulator it started from. -/
theorem scheduleLoop_lookup (items : List JSON) (acc m : StagesDict)
    (h : scheduleLoop items acc = .ok m) (k : JSON) :
    dictLookup m k =
      match dictLookup acc k with
      | some es => some (es ++ keptEntries k items)
      | none =>
        if keptEntries k items = [] then none else some (keptEntries k items) := by
  induction items generalizing acc with
  | nil =>
    unfold scheduleLoop at h
    injection h with hm
    subst hm
    cases hd : dictLookup acc k <;> simp [keptEntries, hd]
  | cons item rest ih =>
    unfold scheduleLoop at h
    cases hp : processItem item with
    | error e1 =>
      rw [hp] at h
      cases hh : exceptHandlerLine item with
      | error e2 => rw [hh] at h; exact Except.noConfusion h
      | ok s =>
        rw [hh] at h
        have hkept : keptEntries k (item :: rest) = keptEntries k rest := by
          simp [keptEntries, hp]
        rw [hkept]
        exact ih acc h
    | ok pr =>
      obtain ⟨plogs, pres⟩ := pr
      cases pres with
      | none =>
        rw [hp] at h
        have hkept : keptEntries k (item :: rest) = keptEntries k rest := by
          simp [keptEntries, hp]
        rw [hkept]
        exact ih acc h
      | some ke =>
        obtain ⟨k2, e⟩ := ke
        rw [hp] at h
        by_cases hk2 : k2 = k
        · subst hk2
          have hkept : keptEntries k2 (item :: rest) = e :: keptEntries k2 rest := by
            simp [keptEntries, hp]
          rw [hkept]
          have := ih (appendEntry acc k2 e) h
          rw [dictLookup_append_same] at this
          rw [this]
          cases hd : dictLookup acc k2 <;> simp [hd]
        · have hkept : keptEntries k (item :: rest) = keptEntries k rest := by
            simp [keptEntries, hp, hk2]
          rw [hkept]
          have := ih (appendEntry acc k2 e) h
          rw [dictLookup_append_ne acc k2 k e (fun hh => hk2 hh.symm)] at this
          exact this

/-- `appendEntry` keeps the key list, extending it only for a first-seen key. -/
theorem appendEntry_keys (d : StagesDict) (k : JSON) (e : Entry) :
    dictKeys (appendEntry d k e) =
      if k ∈ dictKeys d then dictKeys d else dictKeys d ++ [k] := by
  induction d with
  | nil => simp [appendEntry, dictKeys]
  | cons p rest ih =>
    by_cases hpk : p.1 = k
    · simp [appendEntry, dictKeys, hpk]
    · have hne : ¬(k = p.1) := fun hh => hpk hh.symm
      simp only [appendEntry, hpk, if_false, dictKeys, List.map_cons]
      simp only [dictKeys] at ih
      rw [ih]
      by_cases hmem : k ∈ List.map (fun x => x.1) rest
      · simp [hmem, hne]
      · simp [hmem, hne]

/-- Keys stay pairwise distinct under `appendEntry`. -/
theorem appendEntry_keys_nodup (d : StagesDict) (k : JSON) (e : Entry)
    (h : (dictKeys d).Nodup) : (dictKeys (appendEntry d k e)).Nodup := by
  rw [appendEntry_keys]
  by_cases hmem : k ∈ dictKeys d
  · simp [hmem, h]
  · simp [hmem, List.nodup_append, h]

/-- The loop preserves distinctness of the stage keys. -/
theorem scheduleLoop_keys_nodup (items : List JSON) (acc m : StagesDict)
    (h : scheduleLoop items acc = .ok m) (hnd : (dictKeys acc).Nodup) :
    (dictKeys m).Nodup := by
  induction items generalizing acc with
  | nil =>
    unfold scheduleLoop at h
    injection h with hm
    subst hm
    exact hnd
  | cons item rest ih =>
    unfold scheduleLoop at h
    cases hp : processItem item with
    | error e1 =>
      rw [hp] at h
      cases hh : exceptHandlerLine item with
      | error e2 => rw [hh] at h; exact Except.noConfusion h
      | ok s => rw [hh] at h; exact ih acc h hnd
    | ok pr =>
      obtain ⟨plogs, pres⟩ := pr
      cases pres with
      | none => rw [hp] at h; exact ih acc h hnd
      | some ke =>
        obtain ⟨k2, e⟩ := ke
        rw [hp] at h
        exact ih (appendEntry acc k2 e) h (appendEntry_keys_nodup acc k2 e hnd)

/-- With distinct keys, membership of a pair in the dictionary is exactly a
successful lookup. -/
theorem dictLookup_of_mem (d : StagesDict) (hnd : (dictKeys d).Nodup)
    (k : JSON) (es : List Entry) (hmem : (k, es) ∈ d) :
    dictLookup d k = some es := by
  induction d with
  | nil => cases hmem
  | cons p rest ih =>
    rcases List.mem_cons.mp hmem with h1 | h2
    · rw [← h1]
      simp [dictLookup, List.find?]
    · have hnd2 : p.1 ∉ List.map (fun x => x.1) rest ∧
          (List.map (fun x => x.1) rest).Nodup := by
        have hh := hnd
        rw [dictKeys, List.map_cons, List.nodup_cons] at hh
        exact hh
      have hknd : k ∈ List.map (fun x => x.1) rest :=
        List.mem_map.mpr ⟨(k, es), h2, rfl⟩
      have hpk : ¬(p.1 = k) := fun hh => hnd2.1 (hh ▸ hknd)
      simp only [dictLookup, List.find?, hpk, decide_False]
      exact ih hnd2.2 h2

/-- Unfolding membership in the kept-record list. -/
theorem mem_keptEntries (k : JSON) (items : List JSON) (e : Entry) :
    e ∈ keptEntries k items ↔
      ∃ item ∈ items, ∃ logs, processItem item = .ok (logs, some (k, e)) := by
  unfold keptEntries
  rw [List.mem_filterMap]
  constructor
  · rintro ⟨item, hmem, hsome⟩
    refine ⟨item, hmem, ?_⟩
    cases hp : processItem item with
    | error e1 => rw [hp] at hsome; cases hsome
    | ok pr =>
      obtain ⟨plogs, pres⟩ := pr
      cases pres with
      | none => rw [hp] at hsome; cases hsome
      | some ke =>
        obtain ⟨k2, e2⟩ := ke
        rw [hp] at hsome
        by_cases hk : k2 = k
        · subst hk
          simp at hsome
          exact ⟨plogs, by rw [hsome]⟩
        · simp [hk] at hsome
  · rintro ⟨item, hmem, logs, hp⟩
    exact ⟨item, hmem, by rw [hp]; simp⟩

/-- A falsy input has no retrievable `schedules` iterable. -/
theorem schedulesOf_not_ok_of_falsy (d : JSON) (hf : truthy d = false)
    (items : List JSON) : schedulesOf d ≠ .ok items := by
  intro h
  cases d with
  | obj kvs =>
    have hk : kvs = [] := by
      simpa [truthy, List.isEmpty_iff] using hf
    subst hk
    simp [schedulesOf, pySubscript, lookupField, List.find?, bind, Except.bind] at h
  | null => simp [schedulesOf, pySubscript, bind, Except.bind] at h
  | bool b => simp [schedulesOf, pySubscript, bind, Except.bind] at h
  | num n => simp [schedulesOf, pySubscript, bind, Except.bind] at h
  | str s2 => simp [schedulesOf, pySubscript, bind, Except.bind] at h
  | arr xs => simp [schedulesOf, pySubscript, bind, Except.bind] at h

/-- When `'schedules' in schedule_data` is false, the subscript on line 55
cannot succeed either. -/
theorem schedulesOf_not_ok_of_no_key (d : JSON)
    (hc : pyContains "schedules" d = .ok false)
    (items : List JSON) : schedulesOf d ≠ .ok items := by
  intro h
  cases d with
  | obj kvs =>
    have hfind : lookupField kvs "schedules" = none := by
      simp only [pyContains, Except.ok.injEq] at hc
      have hfnone : List.find? (fun kv => kv.1 == "schedules") kvs = none := by
        apply List.find?_eq_none.mpr
        intro x hx
        have hcc : ∀ (a : String) (b : JSON), (a, b) ∈ kvs → ¬a = "schedules" := by
          simpa using hc
        obtain ⟨a, b⟩ := x
        simpa using hcc a b hx
      simp [lookupField, hfnone]
    simp [schedulesOf, pySubscript, hfind, bind, Except.bind] at h
  | null => simp [pyContains] at hc
  | bool b => simp [pyContains] at hc
  | num n => simp [pyContains] at hc
  | str s2 => simp [schedulesOf, pySubscript, bind, Except.bind] at h
  | arr xs => simp [schedulesOf, pySubscript, bind, Except.bind] at h

/-- A successful extraction either came from one of the two `{}`-returning
guard branches or from the loop over the `schedules` list. -/
theorem extract_ok_cases (d : JSON) (m : StagesDict)
    (h : extract_schedule_info d = .ok m) :
    m = [] ∨ ∃ items, schedulesOf d = .ok items ∧ scheduleLoop items [] = .ok m := by
  unfold extract_schedule_info at h
  split at h
  · exact .inl (Except.ok.inj h).symm
  · cases hc : pyContains "schedules" d with
    | error e1 => rw [hc] at h; exact Except.noConfusion h
    | ok b =>
      rw [hc] at h
      cases b with
      | false => exact .inl (Except.ok.inj h).symm
      | true =>
        cases hi : schedulesOf d with
        | error e2 => rw [hi] at h; exact Except.noConfusion h
        | ok items =>
          rw [hi] at h
          exact .inr ⟨items, rfl, h⟩

/-- When the `schedules` iterable exists, a successful extraction is exactly
the loop's result started from the empty dictionary. -/
theorem extract_ok_items (d : JSON) (m : StagesDict) (items : List JSON)
    (h : extract_schedule_info d = .ok m) (hi : schedulesOf d = .ok items) :
    scheduleLoop items [] = .ok m := by
  unfold extract_schedule_info at h
  split at h
  case isTrue hf => exact absurd hi (schedulesOf_not_ok_of_falsy d (by simpa using hf) items)
  case isFalse hf =>
    cases hc : pyContains "schedules" d with
    | error e1 => rw [hc] at h; exact Except.noConfusion h
    | ok b =>
      rw [hc] at h
      cases b with
      | false => exact absurd hi (schedulesOf_not_ok_of_no_key d hc items)
      | true => rw [hi] at h; exact h

/-- Every record in a successful extraction was produced by a successful,
kept run of the per-item body on one of the schedule items, under exactly
the key it is listed at. -/
theorem extract_record_trace (d : JSON) (m : StagesDict)
    (h : extract_schedule_info d = .ok m) (p : JSON × List Entry) (hp : p ∈ m)
    (e : Entry) (he : e ∈ p.2) :
    ∃ items item, schedulesOf d = .ok items ∧ item ∈ items ∧
      ∃ logs, processItem item = .ok (logs, some (p.1, e)) := by
  rcases extract_ok_cases d m h with hnil | ⟨items, hi, hloop⟩
  · subst hnil; cases hp
  · obtain ⟨k, es⟩ := p
    have hnd := scheduleLoop_keys_nodup items [] m hloop (by simp [dictKeys])
    have hlk := dictLookup_of_mem m hnd k es hp
    have hchar := scheduleLoop_lookup items [] m hloop k
    rw [hlk] at hchar
    have hempty : dictLookup ([] : StagesDict) k = none := rfl
    rw [hempty] at hchar
    by_cases hk : keptEntries k items = []
    · rw [if_pos hk] at hchar; cases hchar
    · rw [if_neg hk] at hchar
      injection hchar with hes
      have he2 : e ∈ keptEntries k items := hes ▸ he
      obtain ⟨item, hitem, logs, hpi⟩ := (mem_keptEntries k items e).mp he2
      exact ⟨items, item, hi, hitem, logs, hpi⟩

/-! ## Claims -/

/-- C1, counterexample.  The claim says every record appearing in an output
sequence of `extract_schedule_info` has a non-null `date_from_iso8601`.  At
this input the single item passes the inclusion gate (its raw `date_from` is
non-null), but the timestamp conversion overflows and yields null — and the
record is still constructed and kept, with `date_from_iso8601 = none`. -/
theorem c1_counterexample :
    extract_schedule_info c1Input = .ok [(JSON.str "Unknown Stage", [c1Record])] ∧
      c1Record.date_from_iso8601 = none := ⟨rfl, rfl⟩

/-- C1, amended.  Every record in any output of `extract_schedule_info`
has a non-null `id` and a truthy (hence non-null and non-empty)
`artist_name`; its `date_from_iso8601` is the result of
`timestamp_to_iso8601` on the item's non-null raw `date_from`, which is
null exactly when that conversion failed (the unconditional non-nullness
claimed for `date_from_iso8601` is refuted by `c1_counterexample`). -/
theorem c1_record_invariant (d : JSON) (m : StagesDict)
    (h : extract_schedule_info d = .ok m) :
    ∀ p ∈ m, ∀ e ∈ p.2, e.id ≠ JSON.null ∧ truthy e.artist_name = true ∧
      ∃ dfm flog, dfm ≠ JSON.null ∧
        timestamp_to_iso8601 dfm = .ok (e.date_from_iso8601, flog) := by
  intro p hp e he
  obtain ⟨items, item, hi, hitem, logs, hpi⟩ := extract_record_trace d m h p hp e he
  obtain ⟨dfm, dtm, si, rsn, ai, en, flog, tlog, h1, h2, h3, h4, h5, h6, h7, h8, h9,
    h10, h11, h12, h13, h14, h15, h16, h17⟩ := processItem_ok_some item logs p.1 e hpi
  exact ⟨h10, h12, dfm, flog, h11, h13⟩

/-- C1 witness: the amended invariant instantiated at `sampleInput`. -/
theorem c1_record_invariant_witness :
    sampleRecord.id ≠ JSON.null ∧ truthy sampleRecord.artist_name = true ∧
      ∃ dfm flog, dfm ≠ JSON.null ∧
        timestamp_to_iso8601 dfm = .ok (sampleRecord.date_from_iso8601, flog) :=
  c1_record_invariant sampleInput sampleOutput rfl (.str "Main Stage", [sampleRecord])
    (by simp [sampleOutput]) sampleRecord (by simp)

/-- C2, counterexample.  The claim says that when the artist's `localized`
list is non-empty but has no EN entry, the genre is taken from the first
entry (first-entry fallback, as for stage names).  Here the artist's list is
`[{language: "CZ", genre: "Metal"}]`, yet the produced record's genre is
null, not "Metal": scrape.py line 75 searches only for `language == 'EN'`
and line 83 falls back to `None`, never to the first entry. -/
theorem c2_counterexample :
    extract_schedule_info c2Input = .ok [(JSON.str "Unknown Stage", [c2Record])] ∧
      c2Record.genre = JSON.null := ⟨rfl, rfl⟩

/-- C2, amended.  The genre of a produced record is resolved from the
artist's `localized` list by the EN-only search of `en_localized` (no
first-entry fallback, unlike stage names): whenever that search yields
nothing — including for a non-empty list with no EN entry — the genre is
null. -/
theorem c2_genre_resolution (item : JSON) (logs : List String) (k : JSON) (e : Entry)
    (h : processItem item = .ok (logs, some (k, e))) :
    ∃ ai en, pyGetD item "artist" (.obj []) = .ok ai ∧ en_localized ai = .ok en ∧
      resolve_genre en = .ok e.genre ∧ (en = none → e.genre = JSON.null) := by
  obtain ⟨dfm, dtm, si, rsn, ai, en, flog, tlog, h1, h2, h3, h4, h5, h6, h7, h8, h9,
    h10, h11, h12, h13, h14, h15, h16, h17⟩ := processItem_ok_some item logs k e h
  refine ⟨ai, en, h7, h9, h15, ?_⟩
  intro hen
  subst hen
  simp only [resolve_genre] at h15
  exact (Except.ok.inj h15).symm

/-- C2 witness: the amended genre resolution instantiated at `sampleItem`. -/
theorem c2_genre_resolution_witness :
    ∃ ai en, pyGetD sampleItem "artist" (.obj []) = .ok ai ∧ en_localized ai = .ok en ∧
      resolve_genre en = .ok sampleRecord.genre ∧
      (en = none → sampleRecord.genre = JSON.null) :=
  c2_genre_resolution sampleItem [] (.str "Main Stage") sampleRecord rfl

/-- C3, counterexample.  The claim is an "if and only if": an item with
non-null `id`, non-null `date_from` and non-empty artist name contributes a
record.  `c3Item` satisfies all three gate conditions, yet the output of
`extract_schedule_info` on a list containing only it is empty: its string
`date_to` makes `timestamp_to_iso8601` raise an uncaught `TypeError`
inside the `try` body, and the item is dropped by the `except` handler. -/
theorem c3_counterexample :
    pyGet c3Item "id" = .ok (.num 1) ∧
    pyGet c3Item "date_from" = .ok (.num 0) ∧
    pyGetD c3Item "artist" (.obj []) = .ok (.obj [("name", .str "X")]) ∧
    artist_name_of (.obj [("name", .str "X")]) = .ok (.str "X") ∧
    truthy (.str "X") = true ∧
    extract_schedule_info c3Input = .ok [] := ⟨rfl, rfl, rfl, rfl, rfl, rfl⟩

/-- C3, amended.  (i) A record is produced for an item only if the item's
`id` is non-null, its raw `date_from` is non-null and its artist name is
truthy — so items failing the inclusion gate never contribute a record;
(ii) every record of a successful extraction comes from such a kept item,
so gate-failing items appear in no output sequence.  The converse — that
every gate-passing item appears — is false (`c3_counterexample`): a
gate-passing item is dropped when its per-item processing raises. -/
theorem c3_inclusion_gate :
    (∀ item logs k e, processItem item = .ok (logs, some (k, e)) →
      pyGet item "id" = .ok e.id ∧ e.id ≠ JSON.null ∧
      (∃ dfm, pyGet item "date_from" = .ok dfm ∧ dfm ≠ JSON.null) ∧
      (∃ ai, pyGetD item "artist" (.obj []) = .ok ai ∧
        artist_name_of ai = .ok e.artist_name ∧ truthy e.artist_name = true)) ∧
    (∀ d m, extract_schedule_info d = .ok m → ∀ p ∈ m, ∀ e ∈ p.2,
      ∃ items item, schedulesOf d = .ok items ∧ item ∈ items ∧
        ∃ logs, processItem item = .ok (logs, some (p.1, e))) := by
  constructor
  · intro item logs k e h
    obtain ⟨dfm, dtm, si, rsn, ai, en, flog, tlog, h1, h2, h3, h4, h5, h6, h7, h8, h9,
      h10, h11, h12, h13, h14, h15, h16, h17⟩ := processItem_ok_some item logs k e h
    exact ⟨h1, h10, ⟨dfm, h2, h11⟩, ⟨ai, h7, h8, h12⟩⟩
  · intro d m h p hp e he
    exact extract_record_trace d m h p hp e he

/-- C3 witness: both parts instantiated at `sampleItem` / `sampleInput`. -/
theorem c3_inclusion_gate_witness :
    (pyGet sampleItem "id" = .ok sampleRecord.id ∧ sampleRecord.id ≠ JSON.null ∧
      (∃ dfm, pyGet sampleItem "date_from" = .ok dfm ∧ dfm ≠ JSON.null) ∧
      (∃ ai, pyGetD sampleItem "artist" (.obj []) = .ok ai ∧
        artist_name_of ai = .ok sampleRecord.artist_name ∧
        truthy sampleRecord.artist_name = true)) ∧
    (∃ items item, schedulesOf sampleInput = .ok items ∧ item ∈ items ∧
      ∃ logs, processItem item = .ok (logs, some (JSON.str "Main Stage", sampleRecord))) :=
  ⟨c3_inclusion_gate.1 sampleItem [] (.str "Main Stage") sampleRecord rfl,
   c3_inclusion_gate.2 sampleInput sampleOutput rfl (.str "Main Stage", [sampleRecord])
     (by simp [sampleOutput]) sampleRecord (by simp)⟩

/-- C4.  The claim (matching the comment on scrape.py line 106, "Continue
processing other items") says one item raising during processing never
aborts the run, and every other gate-passing item still appears.  The code
violates it: for a non-dict item, the `try` body raises `AttributeError` at
`item.get('id')`, and then the `except` handler's own
`item.get('id', 'Unknown')` (line 105) raises `AttributeError` again —
uncaught, aborting `extract_schedule_info`.  At `c4Input`, only the first
item raises, yet the whole extraction aborts and the second, fully valid
item's record is lost. -/
theorem c4_handler_abort :
    processItem (JSON.num 42) = .error .attributeError ∧
    processItem sampleItem = .ok ([], some (.str "Main Stage", sampleRecord)) ∧
    exceptHandlerLine (JSON.num 42) = .error .attributeError ∧
    extract_schedule_info c4Input = .error .attributeError := ⟨rfl, rfl, rfl, rfl⟩

/-- C5, counterexample.  The claim says every item with non-null `id`,
non-null `date_from` and non-empty artist name appears in exactly one stage
sequence.  `c5Item` satisfies the gate, but its resolved stage name is a
list — unhashable — so the dictionary insertion on scrape.py line 95 raises
`TypeError` inside the `try` body and the item appears in no sequence. -/
theorem c5_counterexample :
    pyGet c5Item "id" = .ok (.num 1) ∧
    pyGet c5Item "date_from" = .ok (.num 0) ∧
    pyGetD c5Item "artist" (.obj []) = .ok (.obj [("name", .str "X")]) ∧
    artist_name_of (.obj [("name", .str "X")]) = .ok (.str "X") ∧
    truthy (.str "X") = true ∧
    extract_schedule_info c5Input = .ok [] := ⟨rfl, rfl, rfl, rfl, rfl, rfl⟩

/-- C5, amended.  In a successful extraction, each stage key's sequence is
exactly the ordered sublist of records of the kept items that resolved to
that key (`keptEntries`): a kept item's record therefore lands under exactly
the one key computed for it, and two kept items with the same key appear in
input order.  Gate-passing items whose processing raises contribute nothing
(`c5_counterexample`). -/
theorem c5_grouping_order (d : JSON) (m : StagesDict) (items : List JSON)
    (h : extract_schedule_info d = .ok m) (hi : schedulesOf d = .ok items)
    (k : JSON) :
    dictLookup m k =
      if keptEntries k items = [] then none else some (keptEntries k items) := by
  have hloop := extract_ok_items d m items h hi
  have hchar := scheduleLoop_lookup items [] m hloop k
  have hempty : dictLookup ([] : StagesDict) k = none := rfl
  rw [hempty] at hchar
  exact hchar

/-- C5 witness: the per-key characterization instantiated at `sampleInput`. -/
theorem c5_grouping_order_witness :
    dictLookup sampleOutput (.str "Main Stage") =
      if keptEntries (.str "Main Stage") [sampleItem] = [] then none
      else some (keptEntries (.str "Main Stage") [sampleItem]) :=
  c5_grouping_order sampleInput sampleOutput [sampleItem] rfl rfl (.str "Main Stage")

/-- Lazy EN search over a list of pure `{language, name}` pair objects is
`List.find?` on the language component. -/
theorem findEN_pairs (ps : List (String × String)) :
    findEN (ps.map (fun p => JSON.obj [("language", .str p.1), ("name", .str p.2)])) =
      .ok ((ps.find? (fun p => p.1 == "EN")).map
        (fun p => JSON.obj [("language", .str p.1), ("name", .str p.2)])) := by
  induction ps with
  | nil => rfl
  | cons p rest ih =>
    by_cases hp : p.1 = "EN"
    · simp [findEN, pyGet, lookupField, List.find?, hp, bind, Except.bind]
    · have hb : (p.1 == "EN") = false := by simp [hp]
      simp [findEN, pyGet, lookupField, List.find?, hp, hb, bind, Except.bind, ih]

/-- C6, confirmed.  (i) Over any list of `{language, name}` pairs,
`extract_stage_name` returns the name of the first entry whose language is
"EN", else the first entry's name, and null for the empty list; (ii) a null
stage object and an object with no `localized` list also resolve to null;
(iii) whenever the item's stage resolution yields null, the per-item
processing prints the warning naming the item's id, and — if the item is
kept — groups it under the literal key "Unknown Stage". -/
theorem c6_stage_resolution :
    (∀ ps : List (String × String),
      extract_stage_name (.obj [("localized", localizedPairs ps)]) =
        .ok (match ps.find? (fun p => p.1 == "EN") with
          | some p => JSON.str p.2
          | none => match ps with
            | [] => JSON.null
            | q :: _ => JSON.str q.2)) ∧
    extract_stage_name JSON.null = .ok JSON.null ∧
    extract_stage_name (.obj []) = .ok JSON.null ∧
    (∀ item si i logs res, processItem item = .ok (logs, res) →
      pyGet item "stage" = .ok si → extract_stage_name si = .ok JSON.null →
      pyGet item "id" = .ok i →
      warnLine i ∈ logs ∧ ∀ k e, res = some (k, e) → k = .str "Unknown Stage") := by
  refine ⟨?_, rfl, rfl, ?_⟩
  · intro ps
    simp only [extract_stage_name, localizedPairs]
    rw [if_neg (by simp [truthy])]
    have hg : pyGetD (JSON.obj [("localized",
        .arr (ps.map (fun p => JSON.obj [("language", .str p.1), ("name", .str p.2)])))])
        "localized" (.arr []) =
        .ok (.arr (ps.map (fun p => JSON.obj [("language", .str p.1), ("name", .str p.2)]))) := by
      simp [pyGetD, lookupField, List.find?]
    rw [hg]
    simp only [bind, Except.bind, pyIter, findEN_pairs]
    cases hf : ps.find? (fun p => p.1 == "EN") with
    | some p =>
      simp only [Option.map_some]
      rw [if_pos (by simp [truthy])]
      simp [pyGet, lookupField, List.find?, Option.getD]
    | none =>
      simp only [Option.map_none]
      cases ps with
      | nil => rfl
      | cons q rest =>
        rw [if_neg (by simp)]
        rw [if_pos (by simp [truthy])]
        simp [pyIndex0, pyGet, lookupField, List.find?, bind, Except.bind]
  · intro item si i logs res h hsi hnull hid
    cases res with
    | none =>
      obtain ⟨i2, dfm, si2, rsn, ai, an, k1, k2, k3, k4, k5, k6, k7, k8⟩ :=
        processItem_ok_none item logs h
      have hi2 : i2 = i := Except.ok.inj (k1.symm.trans hid)
      have hsi2 : si2 = si := Except.ok.inj (k3.symm.trans hsi)
      have hrsn : rsn = JSON.null := Except.ok.inj ((hsi2 ▸ k4).symm.trans hnull)
      subst hi2
      subst hrsn
      rw [k7]
      exact ⟨by simp [stage_warn, truthy], fun k e hh => by cases hh⟩
    | some ke =>
      obtain ⟨k0, e⟩ := ke
      obtain ⟨dfm, dtm, si4, rsn, ai, en, flog, tlog, h1, h2, h3, h4, h5, h6, h7, h8, h9,
        h10, h11, h12, h13, h14, h15, h16, h17⟩ := processItem_ok_some item logs k0 e h
      have hie : e.id = i := Except.ok.inj (h1.symm.trans hid)
      have hsi4 : si4 = si := Except.ok.inj (h4.symm.trans hsi)
      have hrsn : rsn = JSON.null := Except.ok.inj ((hsi4 ▸ h5).symm.trans hnull)
      subst hrsn
      constructor
      · rw [h17, hie]
        simp [stage_warn, truthy]
      · intro k2 e2 hh
        injection hh with hpr
        injection hpr with hk2 he2
        rw [← hk2, h6]
        rfl

/-- C6 witness: the resolution characterization at the spec's own examples,
and the "Unknown Stage" branch at `c6Item` (which has no `stage` field, so
resolution yields null and the warning naming id 7 is printed). -/
theorem c6_stage_resolution_witness :
    extract_stage_name (.obj [("localized",
        localizedPairs [("FR", "Scene A"), ("EN", "Stage A")])]) =
      .ok (match [("FR", "Scene A"), ("EN", "Stage A")].find? (fun p => p.1 == "EN") with
        | some p => JSON.str p.2
        | none => match [("FR", "Scene A"), ("EN", "Stage A")] with
          | [] => JSON.null
          | q :: _ => JSON.str q.2) ∧
    (warnLine (JSON.num 7) ∈ [warnLine (JSON.num 7)] ∧
      ∀ k e, (none : Option (JSON × Entry)) = some (k, e) → k = .str "Unknown Stage") :=
  ⟨c6_stage_resolution.1 [("FR", "Scene A"), ("EN", "Stage A")],
   c6_stage_resolution.2.2.2 c6Item JSON.null (JSON.num 7) [warnLine (JSON.num 7)] none
     rfl rfl rfl rfl⟩

/-- C7, confirmed.  `timestamp_to_iso8601` maps null to null, and on any
integer input it never raises: an in-range value converts to an ISO string
with nothing printed, and an out-of-range value (overflow / invalid date)
prints the diagnostic naming the value and yields null. -/
theorem c7_timestamp_conversion :
    timestamp_to_iso8601 JSON.null = .ok (none, []) ∧
    (∀ n : Int, tsMinMs ≤ n ∧ n ≤ tsMaxMs →
      timestamp_to_iso8601 (.num n) = .ok (some (isoFromMs n), [])) ∧
    (∀ n : Int, ¬(tsMinMs ≤ n ∧ n ≤ tsMaxMs) →
      timestamp_to_iso8601 (.num n) = .ok (none, [tsErrLine (.num n)])) ∧
    (∀ n : Int, ∃ r, timestamp_to_iso8601 (.num n) = .ok r) := by
  refine ⟨rfl, ?_, ?_, ?_⟩
  · intro n hn
    simp only [timestamp_to_iso8601]
    rw [if_pos hn]
  · intro n hn
    simp only [timestamp_to_iso8601]
    rw [if_neg hn]
  · intro n
    by_cases hn : tsMinMs ≤ n ∧ n ≤ tsMaxMs
    · exact ⟨(some (isoFromMs n), []), by simp only [timestamp_to_iso8601]; rw [if_pos hn]⟩
    · exact ⟨(none, [tsErrLine (.num n)]), by simp only [timestamp_to_iso8601]; rw [if_neg hn]⟩

/-- C7 witness: conversion at epoch 0 (in range) and at an epoch around
year 31 million (out of range, logged and nulled). -/
theorem c7_timestamp_conversion_witness :
    timestamp_to_iso8601 (.num 0) = .ok (some (isoFromMs 0), []) ∧
    timestamp_to_iso8601 (.num 1000000000000000000) =
      .ok (none, [tsErrLine (.num 1000000000000000000)]) :=
  ⟨c7_timestamp_conversion.2.1 0 (by decide),
   c7_timestamp_conversion.2.2.1 1000000000000000000 (by decide)⟩

/-- C9, confirmed (implicit claim).  Every value of a mapping returned by
`extract_schedule_info` is a non-empty sequence: a stage key is created only
at the moment a kept record is appended to it, so no key — including
"Unknown Stage" — ever maps to an empty list. -/
theorem c9_values_nonempty (d : JSON) (m : StagesDict)
    (h : extract_schedule_info d = .ok m) : ∀ p ∈ m, p.2 ≠ [] := by
  intro p hp
  rcases extract_ok_cases d m h with hnil2 | ⟨items, hi, hloop⟩
  · subst hnil2; cases hp
  · obtain ⟨k, es⟩ := p
    have hnd := scheduleLoop_keys_nodup items [] m hloop (by simp [dictKeys])
    have hlk := dictLookup_of_mem m hnd k es hp
    have hchar := scheduleLoop_lookup items [] m hloop k
    rw [hlk] at hchar
    have hempty : dictLookup ([] : StagesDict) k = none := rfl
    rw [hempty] at hchar
    by_cases hk : keptEntries k items = []
    · rw [if_pos hk] at hchar; cases hchar
    · rw [if_neg hk] at hchar
      injection hchar with hes
      show es ≠ []
      rw [hes]
      exact hk

/-- C9 witness: the non-emptiness instantiated at `sampleInput`. -/
theorem c9_values_nonempty_witness :
    ((JSON.str "Main Stage", [sampleRecord]) : JSON × List Entry).2 ≠ [] :=
  c9_values_nonempty sampleInput sampleOutput rfl
    (.str "Main Stage", [sampleRecord]) (by simp [sampleOutput])

/-- C10, counterexample.  The claim quantifies over every localized list
that CONTAINS an EN entry with absent/null name.  This list contains such
an entry (its second), yet resolution returns "A" from the earlier EN
entry, not null: only the FIRST EN match matters. -/
theorem c10_counterexample :
    extract_stage_name (.obj [("localized", .arr
      [.obj [("language", .str "EN"), ("name", .str "A")],
       .obj [("language", .str "EN")]])]) = .ok (.str "A") ∧
    JSON.str "A" ≠ JSON.null := ⟨rfl, fun hh => JSON.noConfusion hh⟩

/-- C10, amended.  When the FIRST entry with language "EN" of a stage's
localized list (the entry `next(...)` selects) has an absent or null
`name`, resolution returns null without falling back to any other entry's
name — and a kept item whose stage resolution is null is grouped under
"Unknown Stage". -/
theorem c10_en_entry_no_name :
    (∀ stage_info ls elems en,
      truthy stage_info = true →
      pyGetD stage_info "localized" (.arr []) = .ok ls →
      pyIter ls = .ok elems →
      findEN elems = .ok (some en) →
      truthy en = true →
      pyGet en "name" = .ok JSON.null →
      extract_stage_name stage_info = .ok JSON.null) ∧
    (∀ item si logs k e,
      processItem item = .ok (logs, some (k, e)) →
      pyGet item "stage" = .ok si →
      extract_stage_name si = .ok JSON.null →
      k = .str "Unknown Stage") := by
  constructor
  · intro stage_info ls elems en ht hls hit hfen hten hname
    simp only [extract_stage_name]
    rw [if_neg (by simp [ht])]
    simp only [hls, bind, Except.bind, hit, hfen]
    rw [if_pos (by simp [hten])]
    simpa using hname
  · intro item si logs k e h hsi hnull
    obtain ⟨dfm, dtm, si4, rsn, ai, en, flog, tlog, h1, h2, h3, h4, h5, h6, h7, h8, h9,
      h10, h11, h12, h13, h14, h15, h16, h17⟩ := processItem_ok_some item logs k e h
    have hsi4 : si4 = si := Except.ok.inj (h4.symm.trans hsi)
    have hrsn : rsn = JSON.null := Except.ok.inj ((hsi4 ▸ h5).symm.trans hnull)
    subst hrsn
    rw [h6]
    rfl

/-- C10 witness: the no-name EN entry at a concrete one-entry list, and the
grouping at `c10Item` (kept, grouped under "Unknown Stage"). -/
theorem c10_en_entry_no_name_witness :
    extract_stage_name (.obj [("localized", .arr [.obj [("language", .str "EN")]])]) =
      .ok JSON.null ∧
    JSON.str "Unknown Stage" = JSON.str "Unknown Stage" :=
  ⟨c10_en_entry_no_name.1 (.obj [("localized", .arr [.obj [("language", .str "EN")]])])
      (.arr [.obj [("language", .str "EN")]]) [.obj [("language", .str "EN")]]
      (.obj [("language", .str "EN")]) rfl rfl rfl rfl rfl rfl,
   c10_en_entry_no_name.2 c10Item (.obj [("localized", .arr [.obj [("language", .str "EN")]])])
      [warnLine (.num 1)] (.str "Unknown Stage") c10Record rfl rfl rfl⟩

/-- C8, confirmed.  At the entry point: a failed fetch (the `None` sentinel)
reports "Failed to retrieve or parse schedule data." and writes no file; a
successful fetch whose extraction yields the empty mapping reports
"No valid schedule information extracted." and writes no file; and only a
non-empty mapping is written (as JSON) to the destination. -/
theorem c8_entry_point (fn : String) (d : JSON) (m : StagesDict)
    (hx : extract_schedule_info d = .ok m) (ht : truthy d = true) :
    (∃ r, mainStep fn none = .ok r ∧ r.written = none ∧
      "Failed to retrieve or parse schedule data." ∈ r.logs) ∧
    (m = [] → ∃ r, mainStep fn (some d) = .ok r ∧ r.written = none ∧
      "No valid schedule information extracted." ∈ r.logs) ∧
    (m ≠ [] → ∃ r, mainStep fn (some d) = .ok r ∧ r.written = some m) := by
  refine ⟨⟨⟨["Fetching schedule data...",
      "Failed to retrieve or parse schedule data."], none⟩, rfl, rfl, by simp⟩, ?_, ?_⟩
  · intro hm
    subst hm
    refine ⟨⟨["Fetching schedule data...", "Extracting information...",
      "No valid schedule information extracted."], none⟩, ?_, rfl, by simp⟩
    simp only [mainStep]
    rw [if_pos ht, hx]
    rfl
  · intro hm
    refine ⟨⟨["Fetching schedule data...", "Extracting information...",
      "\nExtracted data for " ++ toString m.length ++ " stages.",
      "Information in JSON format (showing structure):",
      String.mk (List.replicate 50 (Char.ofNat 45)),
      "\nData saved to \x27" ++ fn ++ "\x27"], some m⟩, ?_, rfl⟩
    have hne : ¬(m.isEmpty = true) := by
      cases m with
      | nil => exact absurd rfl hm
      | cons a as => simp [List.isEmpty]
    simp only [mainStep]
    rw [if_pos ht, hx]
    simp only [hne, if_false]
    rfl

/-- C8 witness: the entry-point contract instantiated at the default
destination and `sampleInput` (whose extraction is non-empty, so the
mapping is written). -/
theorem c8_entry_point_witness :
    (∃ r, mainStep "schedule_by_stage.json" none = .ok r ∧ r.written = none ∧
      "Failed to retrieve or parse schedule data." ∈ r.logs) ∧
    (∃ r, mainStep "schedule_by_stage.json" (some sampleInput) = .ok r ∧
      r.written = some sampleOutput) :=
  ⟨(c8_entry_point "schedule_by_stage.json" sampleInput sampleOutput rfl rfl).1,
   (c8_entry_point "schedule_by_stage.json" sampleInput sampleOutput rfl rfl).2.2
     (by simp [sampleOutput])⟩
